import Mathlib

/-!
# Verification of the Beam invoice engine against its specification

Shallow embedding of the Python sources:

* `src/utils/vat_utils.py`        — VAT arithmetic and invoice classification
* `src/utils/ubl_xml_generator.py`— UBL XML serializer and its validator
* `src/utils/crypto_utils.py`     — hashing, hash chain, signing, verification
* `src/main.py`                   — the `issue_invoice` and
  `transmit_invoice_via_peppol` endpoints (state-passing model)

Modelling conventions:

* Python `Decimal` and `float` values are modelled as exact rationals `ℚ`
  (`Decimal` division is context-limited to 28 significant digits in Python;
  the flows modelled here never reach that limit, so exact division is used).
* Python exceptions are modelled by the inductive `PyExc`; fallible code
  returns `Except PyExc α`.
* `hashlib.sha256(s.encode()).hexdigest()` is modelled by an arbitrary
  function parameter `H256 : String → String` threaded through the
  definitions; every statement proved is uniform in the hash function, so it
  holds for SHA-256 in particular, and refutations instantiate `H256 := id`.
* RSA/PEM library calls (`load_pem_private_key`, `load_pem_public_key`,
  `b64decode`, `key.sign`, `key.verify`) are modelled as function parameters
  returning `Option`/`Except`/`Bool`, matching how the code treats their
  failure (a raised exception).
-/

namespace Beam

/-- Python exception classes raised by the modelled code.
`valueError` is the builtin `ValueError`; the rest are from
`src/utils/exceptions.py`.  `httpException c m` models FastAPI's
`HTTPException(c, m)`. -/
inductive PyExc where
  | valueError (msg : String)
  | validationError (msg : String)
  | cryptoError (msg : String)
  | signingError (msg : String)
  | certificateError (msg : String)
  | httpException (statusCode : Nat) (msg : String)
deriving DecidableEq, Repr

/-- `true` iff an `Except` result is an error of class
`utils.exceptions.ValidationError`. -/
def exceptIsValidationError {α : Type} : Except PyExc α → Bool
  | .error (.validationError _) => true
  | _ => false

/-- `true` iff an `Except` result is an error (any raised exception). -/
def exceptIsError {α : Type} : Except PyExc α → Bool
  | .error _ => true
  | .ok _ => false

/-- Round a rational to the nearest integer, ties away from zero: Python
`decimal.ROUND_HALF_UP`. -/
def roundHalfUp (x : ℚ) : ℤ :=
  if 0 ≤ x then ⌊x + 1 / 2⌋ else -⌊(-x) + 1 / 2⌋

/-- `d.quantize(Decimal('0.01'), rounding=ROUND_HALF_UP)`: round to two
decimal places, ties away from zero. -/
def quantize2 (x : ℚ) : ℚ := (roundHalfUp (100 * x) : ℚ) / 100

/-- `x` is a whole number of cents (an exact two-decimal value). -/
def isCents (x : ℚ) : Prop := ∃ n : ℤ, x = (n : ℚ) / 100

/-! ## `src/utils/vat_utils.py` -/

/-- One entry of the `UAE_TAX_CODES` dictionary. -/
structure TaxCodeInfo where
  rate : Option ℚ
  name : String
  name_ar : String
  description : String
  peppol_code : String
  oracle_code : String
  taxable : Bool
deriving DecidableEq, Repr

/-- The `UAE_TAX_CODES` dictionary (insertion-ordered association list). -/
def UAE_TAX_CODES : List (String × TaxCodeInfo) :=
  [ ("SR", { rate := some (5 / 100)
           , name := "Standard-rated"
           , name_ar := "خاضع للضريبة بالنسبة الأساسية"
           , description := "Most goods & services, commercial real estate"
           , peppol_code := "AE", oracle_code := "S-UAE", taxable := true })
  , ("ZR", { rate := some 0
           , name := "Zero-rated"
           , name_ar := "خاضع للضريبة بنسبة الصفر"
           , description := "Exports, international transport, first sale residential property, healthcare, education"
           , peppol_code := "Z", oracle_code := "Z-UAE", taxable := true })
  , ("ES", { rate := none
           , name := "Exempt"
           , name_ar := "معفى من الضريبة"
           , description := "Subsequent residential property sales, bare land, financial services"
           , peppol_code := "E", oracle_code := "X-UAE", taxable := false })
  , ("RC", { rate := some (5 / 100)
           , name := "Reverse charge"
           , name_ar := "آلية الاحتساب العكسي"
           , description := "Importer accounting for VAT (both output & input)"
           , peppol_code := "AE", oracle_code := "RCP-UAE, RCS-UAE", taxable := true })
  , ("OP", { rate := none
           , name := "Out of scope"
           , name_ar := "خارج نطاق الضريبة"
           , description := "Non-UAE supplies"
           , peppol_code := "O", oracle_code := "NO_TAX-UAE", taxable := false }) ]

/-- `is_valid_tax_code`: membership test in `UAE_TAX_CODES`. -/
def is_valid_tax_code (tax_code : String) : Bool :=
  (UAE_TAX_CODES.find? (·.1 = tax_code)).isSome

/-- `get_tax_code_info`: dictionary access guarded by validity, raising
`ValueError` on an unknown code. -/
def get_tax_code_info (tax_code : String) : Except PyExc TaxCodeInfo :=
  match UAE_TAX_CODES.find? (·.1 = tax_code) with
  | none => .error (.valueError
      ("Invalid tax code: " ++ tax_code ++ ". Must be one of ['SR', 'ZR', 'ES', 'RC', 'OP']"))
  | some p => .ok p.2

/-- Return value of `calculate_vat`. -/
structure VatResult where
  net_amount : ℚ
  vat_amount : ℚ
  total_amount : ℚ
  tax_code : String
  tax_rate : Option ℚ
deriving DecidableEq, Repr

/-- `calculate_vat(amount, tax_code, is_inclusive)` from
`src/utils/vat_utils.py` lines 107-176. -/
def calculate_vat (amount : ℚ) (tax_code : String) (is_inclusive : Bool) :
    Except PyExc VatResult :=
  match UAE_TAX_CODES.find? (·.1 = tax_code) with
  | none => .error (.valueError ("Invalid tax code: " ++ tax_code))
  | some (_, tax_info) =>
    match tax_info.rate with
    | none =>
      .ok { net_amount := quantize2 amount
          , vat_amount := 0
          , total_amount := quantize2 amount
          , tax_code := tax_code
          , tax_rate := none }
    | some rate =>
      if is_inclusive then
        let total := amount
        let net := total / (1 + rate)
        let vat := total - net
        .ok { net_amount := quantize2 net
            , vat_amount := quantize2 vat
            , total_amount := quantize2 total
            , tax_code := tax_code
            , tax_rate := some rate }
      else
        let net := amount
        let vat := amount * rate
        let total := net + vat
        .ok { net_amount := quantize2 net
            , vat_amount := quantize2 vat
            , total_amount := quantize2 total
            , tax_code := tax_code
            , tax_rate := some rate }

/-- Return value of `calculate_line_item_vat`. -/
structure LineVat where
  quantity : ℚ
  unit_price : ℚ
  line_net : ℚ
  line_vat : ℚ
  line_total : ℚ
  tax_code : String
  tax_rate : Option ℚ
deriving DecidableEq, Repr

/-- `calculate_line_item_vat(quantity, unit_price, tax_code, is_inclusive)`. -/
def calculate_line_item_vat (quantity unit_price : ℚ) (tax_code : String)
    (is_inclusive : Bool) : Except PyExc LineVat :=
  match calculate_vat (quantity * unit_price) tax_code is_inclusive with
  | .error e => .error e
  | .ok v =>
    .ok { quantity := quantity
        , unit_price := quantize2 unit_price
        , line_net := v.net_amount
        , line_vat := v.vat_amount
        , line_total := v.total_amount
        , tax_code := tax_code
        , tax_rate := v.tax_rate }

/-- Per-tax-code accumulator of `aggregate_invoice_vat`. -/
structure CodeTotals where
  net : ℚ
  vat : ℚ
  total : ℚ
deriving DecidableEq, Repr

/-- One loop iteration of `aggregate_invoice_vat` on the `vat_by_code`
dictionary: create a zero entry on first sight of the code, then add. -/
def updateByCode (m : List (String × CodeTotals)) (code : String) (n v t : ℚ) :
    List (String × CodeTotals) :=
  match m.find? (·.1 = code) with
  | none => m ++ [(code, { net := n, vat := v, total := t })]
  | some _ => m.map fun p =>
      if p.1 = code then (p.1, { net := p.2.net + n, vat := p.2.vat + v, total := p.2.total + t })
      else p

/-- Return value of `aggregate_invoice_vat`. -/
structure AggResult where
  subtotal : ℚ
  total_vat : ℚ
  grand_total : ℚ
  vat_by_code : List (String × CodeTotals)
deriving DecidableEq, Repr

/-- One iteration of the `aggregate_invoice_vat` loop over `line_items`. -/
def aggStep (acc : ℚ × ℚ × ℚ × List (String × CodeTotals)) (item : LineVat) :
    ℚ × ℚ × ℚ × List (String × CodeTotals) :=
  ( acc.1 + item.line_net
  , acc.2.1 + item.line_vat
  , acc.2.2.1 + item.line_total
  , updateByCode acc.2.2.2 item.tax_code item.line_net item.line_vat item.line_total)

/-- `aggregate_invoice_vat(line_items)` from `src/utils/vat_utils.py`
lines 207-248. -/
def aggregate_invoice_vat (line_items : List LineVat) : AggResult :=
  let r := line_items.foldl aggStep
    ((0 : ℚ), (0 : ℚ), (0 : ℚ), ([] : List (String × CodeTotals)))
  { subtotal := quantize2 r.1
  , total_vat := quantize2 r.2.1
  , grand_total := quantize2 r.2.2.1
  , vat_by_code := r.2.2.2 }

/-- `is_valid_trn(trn)`: the regex `^\d{15}$` with the empty-string guard. -/
def is_valid_trn (trn : String) : Bool :=
  if trn = "" then false
  else trn.length = 15 && trn.toList.all (·.isDigit)

/-- `classify_invoice_type(total_amount, vat_enabled)` from
`src/utils/vat_utils.py` lines 300-332. -/
def classify_invoice_type (total_amount : ℚ) (vat_enabled : Bool) : String :=
  if !vat_enabled then "standard"
  else
    let threshold : ℚ := 10000
    if threshold ≤ total_amount then "full" else "simplified"

/-! ## Python value rendering helpers -/

/-- Truthiness of an optional string (`None` and `''` are falsy). -/
def optStrTruthy : Option String → Bool
  | none => false
  | some s => s ≠ ""

/-- `str(v)` for a value that is either a string or `None`. -/
def pyStrOpt : Option String → String
  | some s => s
  | none => "None"

/-- Python `str.isdigit`: `False` on the empty string. -/
def pyIsDigit (s : String) : Bool :=
  s ≠ "" && s.toList.all (·.isDigit)

/-- Python `s.replace(a, b)` for a single-character pattern. -/
def replaceChar (a b : Char) (s : String) : String :=
  ⟨s.toList.map fun c => if c = a then b else c⟩

/-- Python `s.replace(a, '')` for a single-character pattern. -/
def stripChar (a : Char) (s : String) : String :=
  ⟨s.toList.filter (· ≠ a)⟩

/-- Python `str.upper` on the ASCII strings used here. -/
def pyUpper (s : String) : String :=
  ⟨s.toList.map Char.toUpper⟩

/-- Python `abs` on a float modelled as a rational. -/
def pyAbs (x : ℚ) : ℚ := if x < 0 then -x else x

/-- Round to the nearest integer, ties to even: the rounding used by
`f-string` formatting of Python floats. -/
def roundHalfEven (x : ℚ) : ℤ :=
  let n := ⌊x⌋
  let r := x - (n : ℚ)
  if r < 1 / 2 then n
  else if 1 / 2 < r then n + 1
  else if n % 2 = 0 then n else n + 1

/-- Left-pad a two-digit decimal fraction. -/
def pad2 (n : ℕ) : String :=
  if n < 10 then "0" ++ toString n else toString n

/-- Python `f"{x:.2f}"` on a float, with the float modelled as an exact
rational. -/
def fmt2 (x : ℚ) : String :=
  let m := roundHalfEven (100 * x)
  if m < 0 then "-" ++ toString ((-m) / 100) ++ "." ++ pad2 ((-m) % 100).toNat
  else toString (m / 100) ++ "." ++ pad2 (m % 100).toNat

/-- Python `str(x)` on a float, with the float modelled as an exact rational.
Faithful for the one- and two-decimal amounts that occur in the invoice
flows; other rationals (which do not occur there) fall back to a
fraction rendering. -/
def pyFloatStr (x : ℚ) : String :=
  if x.den = 1 then toString x.num ++ ".0"
  else if (100 * x).den = 1 then
    let m := (100 * x).num
    let sign := if m < 0 then "-" else ""
    let a := m.natAbs
    let frac := a % 100
    sign ++ toString (a / 100) ++ "." ++
      (if frac % 10 = 0 then toString (frac / 10) else pad2 frac)
  else toString x.num ++ "/" ++ toString x.den

/-- `needle in haystack` on Python strings (substring containment). -/
def strContainsSub (haystack needle : String) : Bool :=
  haystack.toList.tails.any fun t => needle.toList.isPrefixOf t

/-! ## `src/utils/ubl_xml_generator.py` -/

mutual
/-- An `xml.etree.ElementTree.Element`: tag, attributes, optional text,
child elements in document order. -/
inductive XElem where
  | elem (tag : String) (attrs : List (String × String)) (text : Option String)
         (children : XForest)

/-- The ordered children of an element. -/
inductive XForest where
  | nil
  | cons (hd : XElem) (tl : XForest)
end

/-- Pack a list of children into a forest. -/
def XForest.ofList : List XElem → XForest
  | [] => .nil
  | x :: xs => .cons x (XForest.ofList xs)

/-- Build an element from a list of children (the shape every
`SubElement`/`_add_element` call in the source produces). -/
def xel (tag : String) (attrs : List (String × String)) (text : Option String)
    (children : List XElem) : XElem :=
  .elem tag attrs text (XForest.ofList children)

/-- Escaping of the XML-reserved characters in text content, as
`ElementTree.tostring` performs (ampersands first, so the per-character
expansion below is equivalent to the sequential replacements). -/
def escChar (c : Char) : List Char :=
  if c = '&' then "&amp;".toList
  else if c = '<' then "&lt;".toList
  else if c = '>' then "&gt;".toList
  else [c]

/-- Escape a text node. -/
def xmlEscape (s : String) : String :=
  ⟨(s.toList.map escChar).join⟩

/-- Attribute rendering. -/
def xmlAttrString (attrs : List (String × String)) : String :=
  String.join (attrs.map fun a => " " ++ a.1 ++ "=\"" ++ a.2 ++ "\"")

mutual
/-- Deterministic rendering of an element tree; models
`minidom.parseString(tostring(root, encoding='utf-8')).toprettyxml(indent="  ")`
up to the exact whitespace layout (a fixed function of the tree, which is
what every claim about the serialized bytes needs). -/
def XElem.render (ind : String) : XElem → String
  | .elem tag attrs text children =>
    ind ++ "<" ++ tag ++ xmlAttrString attrs ++ ">"
      ++ (match text with | some t => xmlEscape t | none => "")
      ++ XForest.render (ind ++ "  ") children
      ++ "</" ++ tag ++ ">\n"

/-- Render a forest of children. -/
def XForest.render (ind : String) : XForest → String
  | .nil => ""
  | .cons c cs => "\n" ++ XElem.render ind c ++ XForest.render ind cs
end

/-- `_prettify_xml`: the XML declaration followed by the rendered tree. -/
def prettifyXml (e : XElem) : String :=
  "<?xml version=\"1.0\" encoding=\"utf-8\"?>\n" ++ XElem.render "" e

/-- The invoice-header dictionary handed to the serializer and hash-chain
code.  It is built in `issue_invoice` (`src/main.py` lines 3808-3836) with
every key present; an `Option` field being `none` models the Python value
`None` for that key.  Dates are modelled as their formatted `YYYY-MM-DD`
strings.  `total_amount_aed` is read by the serializer but is absent from
the dictionary built in `issue_invoice`, hence `none` there. -/
structure InvoiceData where
  invoice_number : Option String
  issue_date : Option String
  due_date : Option String
  invoice_type : String
  currency_code : Option String
  supplier_trn : Option String
  supplier_name : Option String
  supplier_address : Option String
  supplier_city : Option String
  supplier_country : Option String
  supplier_peppol_id : Option String
  customer_trn : Option String
  customer_name : Option String
  customer_email : Option String
  customer_address : Option String
  customer_city : Option String
  customer_country : Option String
  customer_peppol_id : Option String
  subtotal_amount : ℚ
  tax_amount : ℚ
  total_amount : ℚ
  amount_due : Option ℚ
  total_amount_aed : Option ℚ
  payment_terms : Option String
  invoice_notes : Option String
  reference_number : Option String
  preceding_invoice_id : Option String
  prev_invoice_hash : Option String
deriving DecidableEq, Repr

/-- One line-item dictionary handed to the serializer, as built in
`issue_invoice` (`src/main.py` lines 3839-3855); every key is present. -/
structure LineItemData where
  line_number : Nat
  item_name : Option String
  item_description : Option String
  item_code : Option String
  quantity : ℚ
  unit_code : Option String
  unit_price : ℚ
  line_extension_amount : ℚ
  tax_category : String
  tax_percent : ℚ
  tax_amount : ℚ
  line_total_amount : ℚ
deriving DecidableEq, Repr

/-- The UBL 2.1 namespace attributes set on the root element. -/
def ublNamespaces : List (String × String) :=
  [ ("xmlns", "urn:oasis:names:specification:ubl:schema:xsd:Invoice-2")
  , ("xmlns:cac", "urn:oasis:names:specification:ubl:schema:xsd:CommonAggregateComponents-2")
  , ("xmlns:cbc", "urn:oasis:names:specification:ubl:schema:xsd:CommonBasicComponents-2") ]

/-- `_add_ubl_version`, `_add_customization_id`, `_add_profile_id` and
`_add_invoice_header`: the header children of the root, in document order.
`nowDate` is `datetime.now().strftime('%Y-%m-%d')`, read only when the
issue date is missing or empty. -/
def addInvoiceHeader (d : InvoiceData) (nowDate : String) : List XElem :=
  [ xel "cbc:UBLVersionID" [] (some "2.1") []
  , xel "cbc:CustomizationID" []
      (some "urn:cen.eu:en16931:2017#compliant#urn:fdc:peppol.eu:2017:poacc:billing:3.0") []
  , xel "cbc:ProfileID" [] (some "urn:fdc:peppol.eu:2017:poacc:billing:01:1.0") []
  , xel "cbc:ID" [] (some (d.invoice_number.getD "")) []
  , xel "cbc:IssueDate" []
      (some (match d.issue_date with
             | some sd => if sd = "" then nowDate else sd
             | none => nowDate)) [] ]
  ++ (match d.due_date with
      | some sd => if sd = "" then [] else [xel "cbc:DueDate" [] (some sd) []]
      | none => [])
  ++ [ xel "cbc:InvoiceTypeCode" []
         (some (if strContainsSub (pyUpper d.invoice_type) "CREDIT" then "381" else "380")) []
     , xel "cbc:DocumentCurrencyCode" [] (some (d.currency_code.getD "AED")) []
     , xel "cbc:TaxCurrencyCode" [] (some "AED") [] ]
  ++ (if optStrTruthy d.invoice_notes then
        [xel "cbc:Note" [] (some (d.invoice_notes.getD "")) []] else [])
  ++ (if optStrTruthy d.reference_number then
        [xel "cac:OrderReference" [] none
          [xel "cbc:ID" [] (some (d.reference_number.getD "")) []]] else [])
  ++ (if optStrTruthy d.preceding_invoice_id then
        [xel "cac:BillingReference" [] none
          [xel "cac:InvoiceDocumentReference" [] none
            [xel "cbc:ID" [] (some (d.preceding_invoice_id.getD "")) []]]] else [])

/-- `_add_supplier_party`. -/
def addSupplierParty (d : InvoiceData) : XElem :=
  xel "cac:AccountingSupplierParty" [] none
    [ xel "cac:Party" [] none (
        (if optStrTruthy d.supplier_peppol_id then
           [xel "cbc:EndpointID" [("schemeID", "0195")]
              (some (d.supplier_peppol_id.getD "")) []] else [])
        ++ [ xel "cac:PartyIdentification" [] none
              [xel "cbc:ID" [("schemeID", "TRN")] (some (d.supplier_trn.getD "")) []]
           , xel "cac:PartyName" [] none
              [xel "cbc:Name" [] (some (d.supplier_name.getD "")) []] ]
        ++ (if optStrTruthy d.supplier_address || optStrTruthy d.supplier_city then
              [xel "cac:PostalAddress" [] none (
                (if optStrTruthy d.supplier_address then
                   [xel "cbc:StreetName" [] (some (d.supplier_address.getD "")) []] else [])
                ++ (if optStrTruthy d.supplier_city then
                      [xel "cbc:CityName" [] (some (d.supplier_city.getD "")) []] else [])
                ++ [xel "cac:Country" [] none
                     [xel "cbc:IdentificationCode" []
                        (some (d.supplier_country.getD "AE")) []]])] else [])
        ++ [ xel "cac:PartyTaxScheme" [] none
              [ xel "cbc:CompanyID" [] (some (d.supplier_trn.getD "")) []
              , xel "cac:TaxScheme" [] none [xel "cbc:ID" [] (some "VAT") []] ]
           , xel "cac:PartyLegalEntity" [] none
              [xel "cbc:RegistrationName" [] (some (d.supplier_name.getD "")) []] ]) ]

/-- `_add_customer_party`. -/
def addCustomerParty (d : InvoiceData) : XElem :=
  xel "cac:AccountingCustomerParty" [] none
    [ xel "cac:Party" [] none (
        (if optStrTruthy d.customer_peppol_id then
           [xel "cbc:EndpointID" [("schemeID", "0195")]
              (some (d.customer_peppol_id.getD "")) []] else [])
        ++ (if optStrTruthy d.customer_trn then
              [xel "cac:PartyIdentification" [] none
                [xel "cbc:ID" [("schemeID", "TRN")] (some (d.customer_trn.getD "")) []]]
            else [])
        ++ [ xel "cac:PartyName" [] none
              [xel "cbc:Name" [] (some (d.customer_name.getD "")) []] ]
        ++ (if optStrTruthy d.customer_address || optStrTruthy d.customer_city then
              [xel "cac:PostalAddress" [] none (
                (if optStrTruthy d.customer_address then
                   [xel "cbc:StreetName" [] (some (d.customer_address.getD "")) []] else [])
                ++ (if optStrTruthy d.customer_city then
                      [xel "cbc:CityName" [] (some (d.customer_city.getD "")) []] else [])
                ++ [xel "cac:Country" [] none
                     [xel "cbc:IdentificationCode" []
                        (some (d.customer_country.getD "AE")) []]])] else [])
        ++ [ xel "cac:PartyLegalEntity" [] none
              [xel "cbc:RegistrationName" [] (some (d.customer_name.getD "")) []] ]
        ++ (if optStrTruthy d.customer_email then
              [xel "cac:Contact" [] none
                [xel "cbc:ElectronicMail" [] (some (d.customer_email.getD "")) []]]
            else [])) ]

/-- `_add_payment_terms`. -/
def addPaymentTerms (d : InvoiceData) : List XElem :=
  if optStrTruthy d.payment_terms then
    [xel "cac:PaymentTerms" [] none
      [xel "cbc:Note" [] (some (d.payment_terms.getD "")) []]]
  else []

/-- `_add_tax_total`. -/
def addTaxTotal (d : InvoiceData) : List XElem :=
  let cur := d.currency_code.getD "AED"
  let taxRate : ℚ :=
    if 0 < d.subtotal_amount then d.tax_amount / d.subtotal_amount * 100 else 5
  [ xel "cac:TaxTotal" [] none
      [ xel "cbc:TaxAmount" [("currencyID", cur)] (some (fmt2 d.tax_amount)) []
      , xel "cac:TaxSubtotal" [] none
          [ xel "cbc:TaxableAmount" [("currencyID", cur)]
              (some (fmt2 d.subtotal_amount)) []
          , xel "cbc:TaxAmount" [("currencyID", cur)] (some (fmt2 d.tax_amount)) []
          , xel "cac:TaxCategory" [] none
              [ xel "cbc:ID" [] (some "S") []
              , xel "cbc:Percent" [] (some (fmt2 taxRate)) []
              , xel "cac:TaxScheme" [] none [xel "cbc:ID" [] (some "VAT") []] ] ] ] ]
  ++ (if cur ≠ "AED" &&
        (match d.total_amount_aed with | some a => a ≠ 0 | none => false) then
        [xel "cac:TaxTotal" [] none
          [xel "cbc:TaxAmount" [("currencyID", "AED")] (some (fmt2 d.tax_amount)) []]]
      else [])

/-- `_add_monetary_total`. -/
def addMonetaryTotal (d : InvoiceData) : XElem :=
  let cur := d.currency_code.getD "AED"
  xel "cac:LegalMonetaryTotal" [] none
    [ xel "cbc:LineExtensionAmount" [("currencyID", cur)]
        (some (fmt2 d.subtotal_amount)) []
    , xel "cbc:TaxExclusiveAmount" [("currencyID", cur)]
        (some (fmt2 d.subtotal_amount)) []
    , xel "cbc:TaxInclusiveAmount" [("currencyID", cur)]
        (some (fmt2 d.total_amount)) []
    , xel "cbc:PayableAmount" [("currencyID", cur)]
        (some (fmt2 (d.amount_due.getD d.total_amount))) [] ]

/-- One `cac:InvoiceLine` of `_add_invoice_lines`.  With all keys present
(as in the issuance flow) `item.get('item_description', ...)` returns the
stored value even when it is `None`, so the fallback default never fires
and a `None` description yields a text-less `Description` element. -/
def addInvoiceLine (item : LineItemData) : XElem :=
  xel "cac:InvoiceLine" [] none (
    [ xel "cbc:ID" [] (some (toString item.line_number)) []
    , xel "cbc:InvoicedQuantity" [("unitCode", item.unit_code.getD "C62")]
        (some (fmt2 item.quantity)) []
    , xel "cbc:LineExtensionAmount" [("currencyID", "AED")]
        (some (fmt2 item.line_extension_amount)) []
    , xel "cac:Item" [] none (
        [ xel "cbc:Description" [] item.item_description []
        , xel "cbc:Name" [] (some (item.item_name.getD "")) [] ]
        ++ (if optStrTruthy item.item_code then
              [xel "cac:SellersItemIdentification" [] none
                [xel "cbc:ID" [] (some (item.item_code.getD "")) []]] else [])
        ++ [ xel "cac:ClassifiedTaxCategory" [] none
              [ xel "cbc:ID" [] (some "S") []
              , xel "cbc:Percent" [] (some (fmt2 item.tax_percent)) []
              , xel "cac:TaxScheme" [] none [xel "cbc:ID" [] (some "VAT") []] ] ])
    , xel "cac:Price" [] none
        [xel "cbc:PriceAmount" [("currencyID", "AED")]
          (some (fmt2 item.unit_price)) []] ])

/-- `UBLXMLGenerator.generate_invoice_xml`: the complete document tree in
build order. -/
def buildInvoiceTree (d : InvoiceData) (lines : List LineItemData)
    (nowDate : String) : XElem :=
  xel "Invoice" ublNamespaces none
    (addInvoiceHeader d nowDate
     ++ [addSupplierParty d]
     ++ [addCustomerParty d]
     ++ addPaymentTerms d
     ++ addTaxTotal d
     ++ [addMonetaryTotal d]
     ++ lines.map addInvoiceLine)

/-- The class method `UBLXMLGenerator.generate_invoice_xml` followed by
`_prettify_xml`. -/
def UBLXMLGenerator.generate_invoice_xml (d : InvoiceData)
    (lines : List LineItemData) (nowDate : String) : String :=
  prettifyXml (buildInvoiceTree d lines nowDate)

/-- The required-field truthiness table of `validate_invoice_data`, in
source order. -/
def requiredFieldTruthy (d : InvoiceData) : List (String × Bool) :=
  [ ("invoice_number", optStrTruthy d.invoice_number)
  , ("issue_date", optStrTruthy d.issue_date)
  , ("supplier_trn", optStrTruthy d.supplier_trn)
  , ("supplier_name", optStrTruthy d.supplier_name)
  , ("customer_name", optStrTruthy d.customer_name)
  , ("subtotal_amount", d.subtotal_amount ≠ 0)
  , ("tax_amount", d.tax_amount ≠ 0)
  , ("total_amount", d.total_amount ≠ 0) ]

/-- `UBLXMLGenerator.validate_invoice_data` from
`src/utils/ubl_xml_generator.py` lines 362-396: returns
`(is_valid, errors)`. -/
def validate_invoice_data (d : InvoiceData) : Bool × List String :=
  let requiredErrors :=
    ((requiredFieldTruthy d).filter (fun p => !p.2)).map
      (fun p => "Missing required field: " ++ p.1)
  let trnErrors :=
    if optStrTruthy d.supplier_trn then
      let trn := stripChar ' ' (d.supplier_trn.getD "")
      if !pyIsDigit trn || trn.length ≠ 15 then
        ["Supplier TRN must be 15 digits"]
      else []
    else []
  let amountErrors :=
    if 1 / 100 < pyAbs (d.total_amount - (d.subtotal_amount + d.tax_amount)) then
      ["Total amount mismatch: " ++ pyFloatStr d.total_amount ++ " != "
        ++ pyFloatStr d.subtotal_amount ++ " + " ++ pyFloatStr d.tax_amount]
    else []
  let errors := requiredErrors ++ trnErrors ++ amountErrors
  (errors.length = 0, errors)

/-- Result of the module-level `generate_invoice_xml` convenience wrapper:
`(success, xml_string_or_None, validation_errors_or_None)`. -/
inductive GenResult where
  | ok (xml : String)
  | failed (errors : List String)
deriving DecidableEq, Repr

/-- The module-level `generate_invoice_xml` from
`src/utils/ubl_xml_generator.py` lines 399-418: validate, then serialize
(the model serializer cannot raise, so the `except` arm is dead). -/
def generate_invoice_xml (d : InvoiceData) (lines : List LineItemData)
    (nowDate : String) : GenResult :=
  let v := validate_invoice_data d
  if !v.1 then .failed v.2
  else .ok (UBLXMLGenerator.generate_invoice_xml d lines nowDate)

/-! ## `src/utils/crypto_utils.py`

The engine is parametrised over the cryptographic library calls: `H256`/
`H512` model `hashlib.sha256/sha512(...).hexdigest()`, `parsePrivateKey`
models `serialization.load_pem_private_key` (with `none` for a raised
exception), `rsaSign` models `private_key.sign` plus base64 encoding (with
`.error` for a raised exception), and similarly for verification.  Every
theorem below is uniform in these parameters, so it holds for the real
primitives in particular. -/

/-- `InvoiceCrypto.compute_hash(data, algorithm)`. -/
def compute_hash (H256 H512 : String → String) (data algorithm : String) :
    Except PyExc String :=
  if algorithm = "sha256" then .ok (H256 data)
  else if algorithm = "sha512" then .ok (H512 data)
  else .error (.cryptoError ("Unsupported hash algorithm: " ++ algorithm))

/-- The pipe-joined canonical string built by
`InvoiceCrypto.compute_invoice_hash` (`src/utils/crypto_utils.py` lines
161-171).  Each field goes through Python `str()`, so a `None` field
renders as the string `None` (in particular a first invoice, whose
`prev_invoice_hash` is `None`, ends in `|None`). -/
def canonicalInvoiceString (d : InvoiceData) : String :=
  String.intercalate "|"
    [ pyStrOpt d.invoice_number
    , pyStrOpt d.issue_date
    , pyStrOpt d.supplier_trn
    , pyStrOpt d.customer_trn
    , pyFloatStr d.total_amount
    , pyFloatStr d.tax_amount
    , pyStrOpt d.prev_invoice_hash ]

/-- `InvoiceCrypto.compute_invoice_hash`: SHA-256 of the canonical pipe
string (the inner `compute_hash` call uses the default `"sha256"` and
cannot fail). -/
def compute_invoice_hash (H256 : String → String) (d : InvoiceData) : String :=
  H256 (canonicalInvoiceString d)

/-- The state held by an `InvoiceCrypto` instance (the certificate
metadata, unused by every modelled flow, is reduced to its serial). -/
structure CryptoEngine (K : Type) where
  private_key : Option K
  cert_serial : String
  signing_count : ℕ
deriving DecidableEq, Repr

/-- `InvoiceCrypto.__init__` (`src/utils/crypto_utils.py` lines 27-84).
`loadCert` models `load_certificate_from_pem` + `validate_certificate`,
returning the certificate's serial number; its errors are the
`CertificateError`s those raise. -/
def InvoiceCrypto.init {K : Type}
    (loadCert : String → Except PyExc String)
    (parsePrivateKey : String → Option K)
    (private_key_pem cert_pem cert_serial : Option String) :
    Except PyExc (CryptoEngine K) :=
  let certPart : Except PyExc String :=
    if optStrTruthy cert_pem then loadCert (cert_pem.getD "")
    else .ok (if optStrTruthy cert_serial then cert_serial.getD "" else "MOCK-CERT-001")
  match certPart with
  | .error e => .error e
  | .ok serial =>
    if optStrTruthy private_key_pem then
      match parsePrivateKey (private_key_pem.getD "") with
      | none => .error (.signingError "Failed to load private key")
      | some k => .ok { private_key := some k, cert_serial := serial, signing_count := 0 }
    else
      .ok { private_key := none, cert_serial := serial, signing_count := 0 }

/-- `InvoiceCrypto.sign_data` (`src/utils/crypto_utils.py` lines 174-215):
raises `SigningError` when no private key is loaded, otherwise signs and
increments the audit counter. -/
def CryptoEngine.sign_data {K : Type}
    (rsaSign : K → String → Except String String)
    (e : CryptoEngine K) (data : String) :
    Except PyExc (String × CryptoEngine K) :=
  match e.private_key with
  | none => .error (.signingError "No private key available for signing")
  | some k =>
    match rsaSign k data with
    | .ok sig => .ok (sig, { e with signing_count := e.signing_count + 1 })
    | .error msg => .error (.signingError ("Digital signature generation failed: " ++ msg))

/-- `InvoiceCrypto.sign_invoice`: signs `invoice_hash + "|" + sha256(xml)`.
(The surrounding `except` re-raises `SigningError` unchanged and
`sign_data` raises nothing else, so the wrapper is the identity.) -/
def CryptoEngine.sign_invoice {K : Type} (H256 : String → String)
    (rsaSign : K → String → Except String String)
    (e : CryptoEngine K) (invoice_hash xml_content : String) :
    Except PyExc (String × CryptoEngine K) :=
  let xml_hash := H256 xml_content
  CryptoEngine.sign_data rsaSign e (invoice_hash ++ "|" ++ xml_hash)

/-- `InvoiceCrypto.verify_signature` (`src/utils/crypto_utils.py` lines
245-282): the whole body is wrapped in `try/except` returning `False`, so
a failing library call short-circuits to `false`. -/
def InvoiceCrypto.verify_signature {PK SB : Type}
    (loadPubKey : String → Option PK)
    (b64decode : String → Option SB)
    (rsaVerify : PK → SB → String → Bool)
    (data signature_b64 public_key_pem : String) : Bool :=
  match loadPubKey public_key_pem with
  | none => false
  | some pk =>
    match b64decode signature_b64 with
    | none => false
    | some sig => rsaVerify pk sig data

/-! ## `src/main.py`: the issuance and transmission endpoints -/

/-- `InvoiceStatus` (`src/main.py` lines 108-115). -/
inductive InvoiceStatus where
  | DRAFT | ISSUED | SENT | VIEWED | PAID | CANCELLED | OVERDUE
deriving DecidableEq, Repr

/-- A row of the `invoices` table (`InvoiceDB`, `src/main.py` lines
362-440), restricted to the fields the issuance and transmission endpoints
read or write.  Dates and timestamps are modelled as formatted strings;
`invoice_type` holds the `InvoiceType` enum value (`"380"`, `"381"`,
`"480"`, `"81"`); line items are embedded as the dictionaries the issuance
flow builds from them. -/
structure Invoice where
  id : String
  company_id : String
  invoice_number : String
  invoice_type : String
  status : InvoiceStatus
  issue_date : String
  due_date : Option String
  currency_code : String
  supplier_trn : String
  supplier_name : String
  supplier_address : Option String
  supplier_city : Option String
  supplier_country : String
  supplier_peppol_id : Option String
  customer_trn : Option String
  customer_name : String
  customer_email : Option String
  customer_address : Option String
  customer_city : Option String
  customer_country : String
  customer_peppol_id : Option String
  subtotal_amount : ℚ
  tax_amount : ℚ
  total_amount : ℚ
  amount_due : ℚ
  payment_terms : Option String
  invoice_notes : Option String
  reference_number : Option String
  preceding_invoice_id : Option String
  credit_note_reason : Option String
  xml_file_path : Option String
  xml_hash : Option String
  prev_invoice_hash : Option String
  signature_b64 : Option String
  signing_cert_serial : Option String
  signing_timestamp : Option String
  peppol_message_id : Option String
  peppol_status : Option String
  peppol_provider : Option String
  peppol_sent_at : Option String
  peppol_response : Option String
  line_items : List LineItemData
deriving DecidableEq, Repr

/-- The persistent state the two endpoints touch: the `invoices` table (in
descending `created_at` order, most recently created first, matching the
`order_by(created_at.desc())` query), the XML file store, and the issuing
company's `invoices_generated` counter. -/
structure ServerState where
  invoices : List Invoice
  files : List (String × String)
  invoices_generated : ℕ
deriving DecidableEq, Repr

/-- Writing a file (overwrite if present). -/
def fileWrite (files : List (String × String)) (path content : String) :
    List (String × String) :=
  match files.find? (·.1 = path) with
  | none => files ++ [(path, content)]
  | some _ => files.map fun p => if p.1 = path then (path, content) else p

/-- Persisting a mutated invoice row back into the table. -/
def updateInvoice (invoices : List Invoice) (inv : Invoice) : List Invoice :=
  invoices.map fun j => if j.id = inv.id then inv else j

/-- The `invoice_data` dictionary built in `issue_invoice` (`src/main.py`
lines 3808-3836). -/
def invoiceDataOfInvoice (inv : Invoice) : InvoiceData :=
  { invoice_number := some inv.invoice_number
  , issue_date := some inv.issue_date
  , due_date := inv.due_date
  , invoice_type := inv.invoice_type
  , currency_code := some inv.currency_code
  , supplier_trn := some inv.supplier_trn
  , supplier_name := some inv.supplier_name
  , supplier_address := inv.supplier_address
  , supplier_city := inv.supplier_city
  , supplier_country := some inv.supplier_country
  , supplier_peppol_id := inv.supplier_peppol_id
  , customer_trn := inv.customer_trn
  , customer_name := some inv.customer_name
  , customer_email := inv.customer_email
  , customer_address := inv.customer_address
  , customer_city := inv.customer_city
  , customer_country := some inv.customer_country
  , customer_peppol_id := inv.customer_peppol_id
  , subtotal_amount := inv.subtotal_amount
  , tax_amount := inv.tax_amount
  , total_amount := inv.total_amount
  , amount_due := some inv.amount_due
  , total_amount_aed := none
  , payment_terms := inv.payment_terms
  , invoice_notes := inv.invoice_notes
  , reference_number := inv.reference_number
  , preceding_invoice_id := inv.preceding_invoice_id
  , prev_invoice_hash := inv.prev_invoice_hash }

/-- The hash-chain back-reference computed by `issue_invoice`
(`src/main.py` lines 3799-3806): the most recently *created* invoice of
the same company (any status), and only if its stored `xml_hash` is
truthy; otherwise the invoice's own (unchanged) `prev_invoice_hash`. -/
def chainPrevHash (s : ServerState) (inv : Invoice) (userCompany : String) :
    Option String :=
  match s.invoices.find? (fun j => j.company_id = userCompany && j.id ≠ inv.id) with
  | some p =>
    match p.xml_hash with
    | some h => if h ≠ "" then some h else inv.prev_invoice_hash
    | none => inv.prev_invoice_hash
  | none => inv.prev_invoice_hash

/-- The JSON body returned by a successful `issue_invoice` call,
restricted to its data-bearing keys. -/
structure IssueResponse where
  invoice_id : String
  invoice_number : String
  status : InvoiceStatus
  xml_hash : String
  signature_generated : Bool
  hash_chain_linked : Bool
deriving DecidableEq, Repr

/-- The `POST /invoices/{id}/issue` endpoint (`src/main.py` lines
3768-3920).  An uncaught exception (signing failure, XML generation
failure) leaves the uncommitted session to roll back, so errors return
the state unchanged.  HTTP error message texts are abbreviated where the
source interpolates runtime values into them; no claim reads them. -/
def issue_invoice {K : Type} (H256 : String → String)
    (rsaSign : K → String → Except String String)
    (crypto : CryptoEngine K)
    (nowDate nowTimestamp : String)
    (s : ServerState) (invoice_id userCompany : String) :
    Except PyExc (ServerState × IssueResponse) :=
  match s.invoices.find? (fun j => j.id = invoice_id && j.company_id = userCompany) with
  | none => .error (.httpException 404 "Invoice not found")
  | some inv =>
    if inv.status ≠ InvoiceStatus.DRAFT then
      .error (.httpException 400 "Can only issue draft invoices.")
    else
      let inv := { inv with prev_invoice_hash := chainPrevHash s inv userCompany }
      let invoice_data := invoiceDataOfInvoice inv
      match generate_invoice_xml invoice_data inv.line_items nowDate with
      | .failed _ => .error (.httpException 500 "XML generation failed")
      | .ok xml_content =>
        let xml_path := "invoices_xml/" ++ replaceChar '/' '_' inv.invoice_number ++ ".xml"
        let files := fileWrite s.files xml_path xml_content
        let inv := { inv with xml_file_path := some xml_path }
        let invoice_hash := compute_invoice_hash H256 invoice_data
        let inv := { inv with xml_hash := some (H256 xml_content) }
        match CryptoEngine.sign_invoice H256 rsaSign crypto invoice_hash xml_content with
        | .error e => .error e
        | .ok (signature, _) =>
          let inv :=
            if signature ≠ "" then
              { inv with signature_b64 := some signature
                       , signing_timestamp := some nowTimestamp
                       , signing_cert_serial := some "MOCK-CERT-001" }
            else inv
          let inv := { inv with status := InvoiceStatus.ISSUED }
          .ok ( { invoices := updateInvoice s.invoices inv
                , files := files
                , invoices_generated := s.invoices_generated + 1 }
              , { invoice_id := inv.id
                , invoice_number := inv.invoice_number
                , status := inv.status
                , xml_hash := H256 xml_content
                , signature_generated := true
                , hash_chain_linked := inv.prev_invoice_hash.isSome } )

/-- The dictionary returned by `send_invoice_via_peppol` (provider adapter
result, `src/utils/peppol_provider.py`). -/
structure SendResult where
  success : Bool
  message_id : Option String
  status : Option String
  provider : Option String
  response : Option String
  sent_at : Option String
  error : Option String
deriving DecidableEq, Repr

/-- The JSON body returned by `transmit_invoice_via_peppol`; keys absent
from a given return statement are `none`. -/
structure TransmitResponse where
  success : Bool
  message : String
  invoice_number : Option String
  message_id : Option String
  status : Option String
  provider : Option String
  sent_at : Option String
  recipient_id : Option String
deriving DecidableEq, Repr

/-- The observable outcome of one `transmit` call: HTTP result, new
server state, and whether the provider's `send_invoice` was invoked. -/
structure TransmitOutcome where
  result : Except PyExc TransmitResponse
  state : ServerState
  providerCalled : Bool

/-- The XML-file existence guard of `transmit_invoice_via_peppol`. -/
def xmlFileOk (s : ServerState) (inv : Invoice) : Bool :=
  match inv.xml_file_path with
  | some p => (s.files.find? (·.1 = p)).isSome
  | none => false

/-- `invoice.peppol_status in ['SENT', 'DELIVERED']`. -/
def alreadyTransmitted (inv : Invoice) : Bool :=
  match inv.peppol_status with
  | some st => st = "SENT" || st = "DELIVERED"
  | none => false

/-- The XML content read from the invoice's stored file path. -/
def xmlContentOf (s : ServerState) (inv : Invoice) : String :=
  ((s.files.find? (·.1 = inv.xml_file_path.getD "")).map (·.2)).getD ""

/-- The `POST /invoices/{id}/transmit-peppol` endpoint (`src/main.py`
lines 3492-3595).  `providerSend xml number sender receiver` models
`send_invoice_via_peppol`; the failure branch's `peppol_response` stores
`json.dumps` of the error object, modelled as a tagged string. -/
def transmit_invoice_via_peppol
    (providerSend : String → String → String → String → SendResult)
    (nowTimestamp : String)
    (s : ServerState) (invoice_id userCompany : String) : TransmitOutcome :=
  match s.invoices.find? (·.id = invoice_id) with
  | none => ⟨.error (.httpException 404 "Invoice not found"), s, false⟩
  | some inv =>
    if inv.company_id ≠ userCompany then
      ⟨.error (.httpException 403 "Access denied"), s, false⟩
    else if inv.status = InvoiceStatus.DRAFT then
      ⟨.error (.httpException 400 "Cannot transmit draft invoice. Update status to VALIDATED first."), s, false⟩
    else if !xmlFileOk s inv then
      ⟨.error (.httpException 400 "Invoice XML not found. Please regenerate the invoice."), s, false⟩
    else if alreadyTransmitted inv then
      ⟨.ok { success := false
           , message := "Invoice already transmitted. Status: " ++ pyStrOpt inv.peppol_status
           , invoice_number := none
           , message_id := inv.peppol_message_id
           , status := none
           , provider := none
           , sent_at := inv.peppol_sent_at
           , recipient_id := none }, s, false⟩
    else if !optStrTruthy inv.supplier_peppol_id then
      ⟨.error (.httpException 400 "Supplier PEPPOL ID is required for transmission"), s, false⟩
    else if !optStrTruthy inv.customer_peppol_id then
      ⟨.error (.httpException 400 "Customer PEPPOL ID is required for transmission"), s, false⟩
    else
      let xml_content := xmlContentOf s inv
      let r := providerSend xml_content inv.invoice_number
                 (inv.supplier_peppol_id.getD "") (inv.customer_peppol_id.getD "")
      if r.success then
        let inv' := { inv with
            peppol_message_id := r.message_id
          , peppol_status := r.status
          , peppol_provider := r.provider
          , peppol_sent_at := some nowTimestamp
          , peppol_response := some (r.response.getD "")
          , status := InvoiceStatus.SENT }
        ⟨.ok { success := true
             , message := "Invoice transmitted successfully via PEPPOL"
             , invoice_number := some inv'.invoice_number
             , message_id := inv'.peppol_message_id
             , status := inv'.peppol_status
             , provider := inv'.peppol_provider
             , sent_at := inv'.peppol_sent_at
             , recipient_id := inv'.customer_peppol_id },
         { s with invoices := updateInvoice s.invoices inv' }, true⟩
      else
        let inv' := { inv with
            peppol_status := some "FAILED"
          , peppol_response := some ("error: " ++ r.error.getD "") }
        ⟨.error (.httpException 500 ("PEPPOL transmission failed: " ++ r.error.getD "")),
         { s with invoices := updateInvoice s.invoices inv' }, true⟩

/-! ## Concrete fixtures (used to evaluate the definitions on explicit
inputs) -/

/-- A single standard-rated line of quantity 10 at unit price 50.00. -/
def sampleLine : LineItemData :=
  { line_number := 1, item_name := some "Widget", item_description := some "A widget"
  , item_code := none, quantity := 10, unit_code := some "C62", unit_price := 50
  , line_extension_amount := 500, tax_category := "S", tax_percent := 5
  , tax_amount := 25, line_total_amount := 525 }

/-- A draft invoice, first invoice of company `c1`. -/
def sampleDraft : Invoice :=
  { id := "inv1", company_id := "c1", invoice_number := "INV-0001"
  , invoice_type := "380", status := .DRAFT, issue_date := "2025-01-15"
  , due_date := none, currency_code := "AED"
  , supplier_trn := "100000000000003", supplier_name := "Acme LLC"
  , supplier_address := none, supplier_city := none, supplier_country := "AE"
  , supplier_peppol_id := some "1000000000"
  , customer_trn := none, customer_name := "Buyer Trading", customer_email := none
  , customer_address := none, customer_city := none, customer_country := "AE"
  , customer_peppol_id := some "2000000000"
  , subtotal_amount := 500, tax_amount := 25, total_amount := 525, amount_due := 525
  , payment_terms := none, invoice_notes := none, reference_number := none
  , preceding_invoice_id := none, credit_note_reason := none
  , xml_file_path := none, xml_hash := none, prev_invoice_hash := none
  , signature_b64 := none, signing_cert_serial := none, signing_timestamp := none
  , peppol_message_id := none, peppol_status := none, peppol_provider := none
  , peppol_sent_at := none, peppol_response := none
  , line_items := [sampleLine] }

/-- Server state holding just the draft invoice. -/
def sampleState : ServerState :=
  { invoices := [sampleDraft], files := [], invoices_generated := 0 }

/-- A signing primitive that always succeeds with a fixed mock signature. -/
def rsaSignMock : Unit → String → Except String String :=
  fun _ _ => .ok "mock-signature"

/-- A certificate loader that always fails (never reached in the flows
below, which supply no certificate). -/
def loadCertFail : String → Except PyExc String :=
  fun _ => .error (.certificateError "bad cert")

/-- A private-key parser that always fails (an unparseable PEM). -/
def parseKeyFail : String → Option Unit := fun _ => none

/-- A private-key parser that always succeeds. -/
def parseKeyOk : String → Option Unit := fun _ => some ()

/-- A crypto engine with a (mock) loaded key. -/
def sampleCrypto : CryptoEngine Unit :=
  { private_key := some (), cert_serial := "MOCK-CERT-001", signing_count := 0 }

/-- `issue_invoice` run on the draft fixture with the identity in place of
SHA-256 (so stored hash values are literally the strings that get hashed). -/
def sampleIssueOut : Except PyExc (ServerState × IssueResponse) :=
  issue_invoice id rsaSignMock sampleCrypto
    "2025-02-01" "2025-02-01T12:00:00" sampleState "inv1" "c1"

/-- The serialized XML of the draft fixture. -/
def sampleXml : String :=
  UBLXMLGenerator.generate_invoice_xml (invoiceDataOfInvoice sampleDraft)
    [sampleLine] "2025-02-01"

/-- The `xml_hash` stored on a given invoice after an issuance outcome. -/
def storedXmlHash (out : Except PyExc (ServerState × IssueResponse))
    (invId : String) : Option String :=
  match out with
  | .ok (s, _) =>
    match s.invoices.find? (·.id = invId) with
    | some inv => inv.xml_hash
    | none => none
  | .error _ => none

/-- An issued invoice already transmitted (`peppol_status = SENT`). -/
def sampleSent : Invoice :=
  { sampleDraft with
    status := .ISSUED
  , xml_file_path := some "invoices_xml/INV-0001.xml"
  , xml_hash := some "contenthash"
  , signature_b64 := some "mock-signature"
  , signing_cert_serial := some "MOCK-CERT-001"
  , signing_timestamp := some "2025-02-01T12:00:00"
  , peppol_status := some "SENT", peppol_message_id := some "MSG-1"
  , peppol_sent_at := some "2025-02-01T12:01:00", peppol_provider := some "mock" }

/-- Server state holding the transmitted invoice and its XML file. -/
def sampleSentState : ServerState :=
  { invoices := [sampleSent]
  , files := [("invoices_xml/INV-0001.xml", "xml-bytes")]
  , invoices_generated := 1 }

/-- An issued, not-yet-transmitted invoice. -/
def sampleIssued : Invoice := { sampleSent with
  peppol_status := none, peppol_message_id := none, peppol_sent_at := none
  , peppol_provider := none }

/-- Server state holding the issued invoice and its XML file. -/
def sampleIssuedState : ServerState :=
  { invoices := [sampleIssued]
  , files := [("invoices_xml/INV-0001.xml", "xml-bytes")]
  , invoices_generated := 1 }

/-- A provider adapter whose send always fails. -/
def providerSendFail : String → String → String → String → SendResult :=
  fun _ _ _ _ =>
    { success := false, message_id := none, status := some "FAILED"
    , provider := some "mock", response := none, sent_at := none
    , error := some "connection refused" }

/-- A provider adapter whose send always succeeds. -/
def providerSendOk : String → String → String → String → SendResult :=
  fun _ _ _ _ =>
    { success := true, message_id := some "MSG-NEW", status := some "SENT"
    , provider := some "mock", response := some "resp", sent_at := some "t"
    , error := none }

/-- A per-line VAT result as produced by `calculate_line_item_vat`:
quantity 10 at 50.00 exclusive, standard-rated. -/
def sampleLineVat : LineVat :=
  { quantity := 10, unit_price := 50, line_net := 500, line_vat := 25
  , line_total := 525, tax_code := "SR", tax_rate := some (5 / 100) }

/-- The `SR` entry of `UAE_TAX_CODES`. -/
def srInfo : TaxCodeInfo :=
  { rate := some (5 / 100)
  , name := "Standard-rated"
  , name_ar := "خاضع للضريبة بالنسبة الأساسية"
  , description := "Most goods & services, commercial real estate"
  , peppol_code := "AE", oracle_code := "S-UAE", taxable := true }

/-- A credit note (`invoice_type = "381"`) with every generically required
field present but no preceding-invoice reference and no credit-note
reason. -/
def creditNoteNoRefData : InvoiceData :=
  invoiceDataOfInvoice { sampleDraft with invoice_type := "381" }

/-! ## Helper lemmas -/

theorem floor_one_half : ⌊(1 / 2 : ℚ)⌋ = 0 := by
  rw [Int.floor_eq_zero_iff]
  constructor <;> norm_num

theorem roundHalfUp_intCast (n : ℤ) : roundHalfUp (n : ℚ) = n := by
  unfold roundHalfUp
  split_ifs with h
  · rw [add_comm, Int.floor_add_int, floor_one_half, zero_add]
  · rw [← Int.cast_neg, add_comm, Int.floor_add_int, floor_one_half, zero_add, neg_neg]

theorem quantize2_eq_self_of_isCents {x : ℚ} (h : isCents x) : quantize2 x = x := by
  obtain ⟨n, rfl⟩ := h
  unfold quantize2
  have h100 : (100 : ℚ) * ((n : ℚ) / 100) = (n : ℚ) := by field_simp
  rw [h100, roundHalfUp_intCast]

theorem isCents_add {x y : ℚ} (hx : isCents x) (hy : isCents y) :
    isCents (x + y) := by
  obtain ⟨n, rfl⟩ := hx
  obtain ⟨m, rfl⟩ := hy
  exact ⟨n + m, by push_cast; ring⟩

theorem isCents_zero : isCents 0 := ⟨0, by norm_num⟩

theorem isCents_listSum {l : List ℚ} (h : ∀ x ∈ l, isCents x) :
    isCents l.sum := by
  induction l with
  | nil => simpa using isCents_zero
  | cons x xs ih =>
    rw [List.sum_cons]
    exact isCents_add (h x (by simp)) (ih fun y hy => h y (by simp [hy]))

theorem foldl_aggStep_sums (items : List LineVat) :
    ∀ (a b c : ℚ) (m : List (String × CodeTotals)),
      (items.foldl aggStep (a, b, c, m)).1 =
          a + (items.map LineVat.line_net).sum ∧
      (items.foldl aggStep (a, b, c, m)).2.1 =
          b + (items.map LineVat.line_vat).sum ∧
      (items.foldl aggStep (a, b, c, m)).2.2.1 =
          c + (items.map LineVat.line_total).sum := by
  induction items with
  | nil => intro a b c m; simp
  | cons x xs ih =>
    intro a b c m
    simp only [List.foldl_cons, List.map_cons, List.sum_cons, aggStep]
    obtain ⟨h1, h2, h3⟩ :=
      ih (a + x.line_net) (b + x.line_vat) (c + x.line_total)
        (updateByCode m x.tax_code x.line_net x.line_vat x.line_total)
    exact ⟨by rw [h1]; ring, by rw [h2]; ring, by rw [h3]; ring⟩

theorem validate_true_required {d : InvoiceData}
    (h : (validate_invoice_data d).1 = true) :
    ∀ p ∈ requiredFieldTruthy d, p.2 = true := by
  unfold validate_invoice_data at h
  simp only [decide_eq_true_eq, List.length_eq_zero, List.append_eq_nil,
    List.map_eq_nil, List.filter_eq_nil] at h
  intro p hp
  have := h.1.1 p hp
  simpa using this

theorem validate_true_issue_date {d : InvoiceData}
    (h : (validate_invoice_data d).1 = true) :
    optStrTruthy d.issue_date = true :=
  validate_true_required h ("issue_date", optStrTruthy d.issue_date)
    (by simp [requiredFieldTruthy])

theorem addInvoiceHeader_now_irrelevant {d : InvoiceData} (now1 now2 : String)
    (h : optStrTruthy d.issue_date = true) :
    addInvoiceHeader d now1 = addInvoiceHeader d now2 := by
  cases hd : d.issue_date with
  | none => rw [hd] at h; simp [optStrTruthy] at h
  | some sd =>
    rw [hd] at h
    have hne : sd ≠ "" := by simpa [optStrTruthy] using h
    simp only [addInvoiceHeader, hd, if_neg hne]

theorem generate_invoice_xml_now_irrelevant {d : InvoiceData}
    {lines : List LineItemData} (now1 now2 : String)
    (h : (validate_invoice_data d).1 = true) :
    generate_invoice_xml d lines now1 = generate_invoice_xml d lines now2 := by
  unfold generate_invoice_xml UBLXMLGenerator.generate_invoice_xml buildInvoiceTree
  rw [addInvoiceHeader_now_irrelevant now1 now2 (validate_true_issue_date h)]

theorem sampleDraftValidation :
    validate_invoice_data (invoiceDataOfInvoice sampleDraft) = (true, []) := by
  have hz : (invoiceDataOfInvoice sampleDraft).total_amount -
      ((invoiceDataOfInvoice sampleDraft).subtotal_amount +
        (invoiceDataOfInvoice sampleDraft).tax_amount) = 0 := by
    norm_num [invoiceDataOfInvoice, sampleDraft]
  simp only [validate_invoice_data, hz]
  have habs : pyAbs 0 = 0 := by simp [pyAbs]
  rw [habs]
  have hlt : ¬ ((1 : ℚ) / 100 < 0) := by norm_num
  rw [if_neg hlt]
  decide

theorem sampleDraftValidates :
    (validate_invoice_data (invoiceDataOfInvoice sampleDraft)).1 = true := by
  rw [sampleDraftValidation]

/-! ## Claim theorems -/

/-- **C10.** For every total amount, `classify_invoice_type` returns
`"standard"` whenever `vat_enabled` is false regardless of the amount;
when `vat_enabled` is true it returns `"full"` iff
`total_amount ≥ 10000.00` and `"simplified"` otherwise (strictly below
the threshold). -/
theorem classify_invoice_type_spec (t : ℚ) :
    classify_invoice_type t false = "standard" ∧
    (classify_invoice_type t true = "full" ↔ 10000 ≤ t) ∧
    (classify_invoice_type t true = "simplified" ↔ t < 10000) := by
  have hb : classify_invoice_type t true =
      if (10000 : ℚ) ≤ t then "full" else "simplified" := rfl
  rcases le_or_lt 10000 t with h | h
  · rw [hb, if_pos h]
    exact ⟨rfl, ⟨fun _ => h, fun _ => rfl⟩,
      ⟨fun hc => absurd hc (by decide), fun hc => absurd h (not_le.mpr hc)⟩⟩
  · rw [hb, if_neg (not_le.mpr h)]
    exact ⟨rfl, ⟨fun hc => absurd hc (by decide), fun hc => absurd hc (not_le.mpr h)⟩,
      ⟨fun _ => h, fun _ => rfl⟩⟩

/-- **C7 (counterexample).** On the unrecognized tax code `"XX"`,
`calculate_vat` raises the *builtin* `ValueError`, not the application's
`ValidationError` class from `utils/exceptions.py` that the claim names. -/
theorem calculate_vat_raises_valueError_cex :
    calculate_vat 100 "XX" false = .error (.valueError "Invalid tax code: XX") ∧
    exceptIsValidationError (calculate_vat 100 "XX" false) = false ∧
    exceptIsError (calculate_vat 100 "XX" false) = true :=
  ⟨rfl, rfl, rfl⟩

/-- **C7 (amended).** For every unrecognized tax code the VAT calculation
fails with the builtin `ValueError` (not `ValidationError`); for every
recognized tax code it always returns a result (no other failure
modes). -/
theorem calculate_vat_error_modes (amount : ℚ) (tax_code : String)
    (is_inclusive : Bool) :
    (is_valid_tax_code tax_code = false →
      calculate_vat amount tax_code is_inclusive =
        .error (.valueError ("Invalid tax code: " ++ tax_code))) ∧
    (is_valid_tax_code tax_code = true →
      ∃ r, calculate_vat amount tax_code is_inclusive = .ok r) := by
  unfold is_valid_tax_code calculate_vat
  cases hf : UAE_TAX_CODES.find? (·.1 = tax_code) with
  | none => simp
  | some p =>
    obtain ⟨c, info⟩ := p
    refine ⟨fun h => by simp at h, fun _ => ?_⟩
    cases hr : info.rate with
    | none =>
      exact ⟨{ net_amount := quantize2 amount, vat_amount := 0
             , total_amount := quantize2 amount, tax_code := tax_code
             , tax_rate := none }, by simp only [hr]⟩
    | some rate =>
      cases is_inclusive with
      | false =>
        exact ⟨{ net_amount := quantize2 amount
               , vat_amount := quantize2 (amount * rate)
               , total_amount := quantize2 (amount + amount * rate)
               , tax_code := tax_code, tax_rate := some rate },
          by simp [hr]⟩
      | true =>
        exact ⟨{ net_amount := quantize2 (amount / (1 + rate))
               , vat_amount := quantize2 (amount - amount / (1 + rate))
               , total_amount := quantize2 amount
               , tax_code := tax_code, tax_rate := some rate },
          by simp [hr]⟩

/-- Witness for `calculate_vat_error_modes` at `tax_code = "SR"` and
`tax_code = "XX"`. -/
theorem calculate_vat_error_modes_witness :
    (is_valid_tax_code "XX" = false →
      calculate_vat 100 "XX" false =
        .error (.valueError ("Invalid tax code: " ++ "XX"))) ∧
    (is_valid_tax_code "XX" = true → ∃ r, calculate_vat 100 "XX" false = .ok r) :=
  calculate_vat_error_modes 100 "XX" false

/-- **C8.** `verify_signature` never throws: it returns `false` on any
failing library call (malformed key, malformed signature encoding, or
failed verification of tampered data), and returns `true` exactly when
the key loads, the signature decodes, and the library verification of the
data under that key succeeds.  The statement is universal in the library
primitives, so it holds for the real RSA/PEM routines. -/
theorem verify_signature_never_throws_spec {PK SB : Type}
    (loadPubKey : String → Option PK) (b64decode : String → Option SB)
    (rsaVerify : PK → SB → String → Bool)
    (data signature_b64 public_key_pem : String) :
    InvoiceCrypto.verify_signature loadPubKey b64decode rsaVerify
        data signature_b64 public_key_pem = true ↔
      ∃ pk sig, loadPubKey public_key_pem = some pk ∧
        b64decode signature_b64 = some sig ∧ rsaVerify pk sig data = true := by
  unfold InvoiceCrypto.verify_signature
  cases hl : loadPubKey public_key_pem with
  | none => simp
  | some pk =>
    cases hd : b64decode signature_b64 with
    | none => simp
    | some sig =>
      constructor
      · intro h; exact ⟨pk, sig, rfl, rfl, h⟩
      · rintro ⟨pk', sig', hpk, hsig, hv⟩
        cases hpk; cases hsig; exact hv

/-- **C6 (code evaluated at the failing input).** A credit note
(`invoice_type = "381"`) missing the preceding-invoice reference (and the
credit-note reason) nevertheless **passes**
`UBLXMLGenerator.validate_invoice_data` with an empty error list, although
the data model documents both fields as mandatory for credit notes (and
the superseded legacy validator `validate_pint_ae_invoice` enforced
them). -/
theorem credit_note_missing_reference_passes_validation :
    creditNoteNoRefData.invoice_type = "381" ∧
    creditNoteNoRefData.preceding_invoice_id = none ∧
    validate_invoice_data creditNoteNoRefData = (true, []) := by
  refine ⟨rfl, rfl, ?_⟩
  have hz : creditNoteNoRefData.total_amount -
      (creditNoteNoRefData.subtotal_amount + creditNoteNoRefData.tax_amount) = 0 := by
    norm_num [creditNoteNoRefData, invoiceDataOfInvoice, sampleDraft]
  simp only [validate_invoice_data, hz]
  have habs : pyAbs 0 = 0 := by simp [pyAbs]
  rw [habs]
  have hlt : ¬ ((1 : ℚ) / 100 < 0) := by norm_num
  rw [if_neg hlt]
  decide

/-- **C3.** For every invoice data dictionary and line-item list that pass
validation (in particular, issue date present), two serializer calls (at
different wall-clock times, the only environmental input) return
byte-identical XML strings, and the content hashes of those strings are
identical. -/
theorem serializer_two_run_determinism (H256 H512 : String → String)
    (d : InvoiceData) (lines : List LineItemData) (now1 now2 : String)
    (hvalid : (validate_invoice_data d).1 = true) :
    generate_invoice_xml d lines now1 = generate_invoice_xml d lines now2 ∧
    (∀ x1 x2, generate_invoice_xml d lines now1 = .ok x1 →
      generate_invoice_xml d lines now2 = .ok x2 →
      compute_hash H256 H512 x1 "sha256" = compute_hash H256 H512 x2 "sha256") := by
  have he := @generate_invoice_xml_now_irrelevant d lines
    now1 now2 hvalid
  refine ⟨he, fun x1 x2 h1 h2 => ?_⟩
  rw [he, h2] at h1
  cases h1
  rfl

/-- Witness for `serializer_two_run_determinism` on the sample draft
invoice at two different dates. -/
theorem serializer_two_run_determinism_witness :
    generate_invoice_xml (invoiceDataOfInvoice sampleDraft) [sampleLine]
        "2025-02-01"
      = generate_invoice_xml (invoiceDataOfInvoice sampleDraft) [sampleLine]
        "2026-12-31" :=
  (serializer_two_run_determinism id id (invoiceDataOfInvoice sampleDraft)
    [sampleLine] "2025-02-01" "2026-12-31" sampleDraftValidates).1

/-- **C2.** For every amount and recognized tax code carrying a numeric
rate, `calculate_vat` in exclusive mode returns `tax = amount * rate` and
`total = amount + tax`, and in inclusive mode `net = amount / (1 + rate)`
and `tax = amount - net`, each output rounded to 2 decimals half-up after
the final arithmetic; and `aggregate_invoice_vat` returns subtotal,
total_vat and grand_total equal to the plain sums of the already-rounded
per-line values (sum-of-rounded, not round-of-sum). -/
theorem calculate_vat_and_aggregate_spec
    (amount : ℚ) (tax_code : String) (info : TaxCodeInfo) (rate : ℚ)
    (hfind : UAE_TAX_CODES.find? (·.1 = tax_code) = some (tax_code, info))
    (hrate : info.rate = some rate)
    (items : List LineVat)
    (hnet : ∀ it ∈ items, isCents it.line_net)
    (hvat : ∀ it ∈ items, isCents it.line_vat)
    (htot : ∀ it ∈ items, isCents it.line_total) :
    calculate_vat amount tax_code false =
      .ok { net_amount := quantize2 amount
          , vat_amount := quantize2 (amount * rate)
          , total_amount := quantize2 (amount + amount * rate)
          , tax_code := tax_code, tax_rate := some rate } ∧
    calculate_vat amount tax_code true =
      .ok { net_amount := quantize2 (amount / (1 + rate))
          , vat_amount := quantize2 (amount - amount / (1 + rate))
          , total_amount := quantize2 amount
          , tax_code := tax_code, tax_rate := some rate } ∧
    (aggregate_invoice_vat items).subtotal = (items.map LineVat.line_net).sum ∧
    (aggregate_invoice_vat items).total_vat = (items.map LineVat.line_vat).sum ∧
    (aggregate_invoice_vat items).grand_total =
      (items.map LineVat.line_total).sum := by
  obtain ⟨h1, h2, h3⟩ := foldl_aggStep_sums items 0 0 0 []
  refine ⟨?_, ?_, ?_, ?_, ?_⟩
  · simp only [calculate_vat, hfind, hrate, Bool.false_eq_true, if_false]
  · simp only [calculate_vat, hfind, hrate, if_true]
  · simp only [aggregate_invoice_vat, h1, zero_add]
    exact quantize2_eq_self_of_isCents (isCents_listSum fun x hx => by
      obtain ⟨it, hit, rfl⟩ := List.mem_map.mp hx
      exact hnet it hit)
  · simp only [aggregate_invoice_vat, h2, zero_add]
    exact quantize2_eq_self_of_isCents (isCents_listSum fun x hx => by
      obtain ⟨it, hit, rfl⟩ := List.mem_map.mp hx
      exact hvat it hit)
  · simp only [aggregate_invoice_vat, h3, zero_add]
    exact quantize2_eq_self_of_isCents (isCents_listSum fun x hx => by
      obtain ⟨it, hit, rfl⟩ := List.mem_map.mp hx
      exact htot it hit)

/-- Witness for `calculate_vat_and_aggregate_spec`: amount 1000, code
`SR` (5%), and a one-line aggregation input with exact-cent values. -/
theorem calculate_vat_and_aggregate_spec_witness :
    calculate_vat 1000 "SR" false =
      .ok { net_amount := quantize2 1000
          , vat_amount := quantize2 (1000 * (5 / 100))
          , total_amount := quantize2 (1000 + 1000 * (5 / 100))
          , tax_code := "SR", tax_rate := some (5 / 100) } ∧
    calculate_vat 1000 "SR" true =
      .ok { net_amount := quantize2 (1000 / (1 + 5 / 100))
          , vat_amount := quantize2 (1000 - 1000 / (1 + 5 / 100))
          , total_amount := quantize2 1000
          , tax_code := "SR", tax_rate := some (5 / 100) } ∧
    (aggregate_invoice_vat [sampleLineVat]).subtotal =
      ([sampleLineVat].map LineVat.line_net).sum ∧
    (aggregate_invoice_vat [sampleLineVat]).total_vat =
      ([sampleLineVat].map LineVat.line_vat).sum ∧
    (aggregate_invoice_vat [sampleLineVat]).grand_total =
      ([sampleLineVat].map LineVat.line_total).sum :=
  calculate_vat_and_aggregate_spec 1000 "SR" srInfo (5 / 100) rfl rfl
    [sampleLineVat]
    (fun it hit => by
      simp only [List.mem_singleton] at hit
      subst hit
      exact ⟨50000, by norm_num [sampleLineVat]⟩)
    (fun it hit => by
      simp only [List.mem_singleton] at hit
      subst hit
      exact ⟨2500, by norm_num [sampleLineVat]⟩)
    (fun it hit => by
      simp only [List.mem_singleton] at hit
      subst hit
      exact ⟨52500, by norm_num [sampleLineVat]⟩)

/-- **C5 (counterexample).** An engine constructed with a *missing*
private key does not fail with `SigningError` at load time, contrary to
the claim: `__init__` succeeds with a key-less engine, and the
missing-key `SigningError` is raised lazily at the first `sign_data`
call. -/
theorem init_missing_key_lazy_failure_cex :
    InvoiceCrypto.init loadCertFail parseKeyFail none none none =
      .ok { private_key := none, cert_serial := "MOCK-CERT-001"
          , signing_count := 0 } ∧
    CryptoEngine.sign_data rsaSignMock
      { private_key := (none : Option Unit), cert_serial := "MOCK-CERT-001"
      , signing_count := 0 } "payload" =
      .error (.signingError "No private key available for signing") :=
  ⟨rfl, rfl⟩

/-- **C5 (amended).** An *invalid* (unparseable) private key fails with
`SigningError` at load time; a *missing* key loads successfully and fails
with the missing-key `SigningError` only at the first `sign_data` call;
an engine holding a successfully loaded key signs without any
missing-key error. -/
theorem signing_error_timing_spec {K : Type}
    (loadCert : String → Except PyExc String)
    (pfBad pfGood : String → Option K)
    (rsaSign : K → String → Except String String)
    (pem data sig : String) (k : K)
    (hpem : pem ≠ "")
    (hbad : pfBad pem = none)
    (hgood : pfGood pem = some k)
    (hsig : rsaSign k data = .ok sig) :
    InvoiceCrypto.init loadCert pfBad (some pem) none none =
      (.error (.signingError "Failed to load private key") :
        Except PyExc (CryptoEngine K)) ∧
    InvoiceCrypto.init loadCert pfGood none none none =
      .ok { private_key := none, cert_serial := "MOCK-CERT-001"
          , signing_count := 0 } ∧
    CryptoEngine.sign_data rsaSign
      ({ private_key := none, cert_serial := "MOCK-CERT-001"
       , signing_count := 0 } : CryptoEngine K) data =
      .error (.signingError "No private key available for signing") ∧
    InvoiceCrypto.init loadCert pfGood (some pem) none none =
      .ok { private_key := some k, cert_serial := "MOCK-CERT-001"
          , signing_count := 0 } ∧
    CryptoEngine.sign_data rsaSign
      ({ private_key := some k, cert_serial := "MOCK-CERT-001"
       , signing_count := 0 } : CryptoEngine K) data =
      .ok (sig, { private_key := some k, cert_serial := "MOCK-CERT-001"
                , signing_count := 1 }) := by
  refine ⟨?_, rfl, rfl, ?_, ?_⟩
  · simp [InvoiceCrypto.init, optStrTruthy, hpem, hbad]
  · simp [InvoiceCrypto.init, optStrTruthy, hpem, hgood]
  · simp [CryptoEngine.sign_data, hsig]

/-- Witness for `signing_error_timing_spec` with concrete parse
functions over `K := Unit`. -/
theorem signing_error_timing_spec_witness :
    InvoiceCrypto.init loadCertFail parseKeyFail (some "PEM") none none =
      (.error (.signingError "Failed to load private key") :
        Except PyExc (CryptoEngine Unit)) ∧
    InvoiceCrypto.init loadCertFail parseKeyOk none none none =
      .ok { private_key := none, cert_serial := "MOCK-CERT-001"
          , signing_count := 0 } ∧
    CryptoEngine.sign_data rsaSignMock
      ({ private_key := none, cert_serial := "MOCK-CERT-001"
       , signing_count := 0 } : CryptoEngine Unit) "payload" =
      .error (.signingError "No private key available for signing") ∧
    InvoiceCrypto.init loadCertFail parseKeyOk (some "PEM") none none =
      .ok { private_key := some (), cert_serial := "MOCK-CERT-001"
          , signing_count := 0 } ∧
    CryptoEngine.sign_data rsaSignMock
      ({ private_key := some (), cert_serial := "MOCK-CERT-001"
       , signing_count := 0 } : CryptoEngine Unit) "payload" =
      .ok ("mock-signature",
        { private_key := some (), cert_serial := "MOCK-CERT-001"
        , signing_count := 1 }) :=
  signing_error_timing_spec loadCertFail parseKeyFail parseKeyOk rsaSignMock
    "PEM" "payload" "mock-signature" () (by decide) rfl rfl rfl

/-- **C4.** A repeated `transmit` call against an invoice whose
transmission status is already `SENT` or `DELIVERED` is a no-op: the
provider send is not invoked, the server state (hence the stored
transmission record) is unchanged, and the response carries the existing
record's message id and status. -/
theorem transmit_repeat_is_noop
    (providerSend : String → String → String → String → SendResult)
    (nowTimestamp : String) (s : ServerState) (invoice_id userCompany : String)
    (inv : Invoice)
    (hfind : s.invoices.find? (·.id = invoice_id) = some inv)
    (hown : inv.company_id = userCompany)
    (hnd : inv.status ≠ InvoiceStatus.DRAFT)
    (hxml : xmlFileOk s inv = true)
    (hsent : alreadyTransmitted inv = true) :
    transmit_invoice_via_peppol providerSend nowTimestamp s invoice_id
        userCompany =
      { result := .ok
          { success := false
          , message := "Invoice already transmitted. Status: " ++
              pyStrOpt inv.peppol_status
          , invoice_number := none
          , message_id := inv.peppol_message_id
          , status := none
          , provider := none
          , sent_at := inv.peppol_sent_at
          , recipient_id := none }
      , state := s
      , providerCalled := false } := by
  simp only [transmit_invoice_via_peppol, hfind, hown, hnd, hxml, hsent,
    ne_eq, not_true_eq_false, Bool.not_true, Bool.false_eq_true, if_false,
    if_true]

/-- Witness for `transmit_repeat_is_noop` on the already-transmitted
fixture. -/
theorem transmit_repeat_is_noop_witness :
    transmit_invoice_via_peppol providerSendOk "2025-03-01T00:00:00"
        sampleSentState "inv1" "c1" =
      { result := .ok
          { success := false
          , message := "Invoice already transmitted. Status: " ++
              pyStrOpt sampleSent.peppol_status
          , invoice_number := none
          , message_id := sampleSent.peppol_message_id
          , status := none
          , provider := none
          , sent_at := sampleSent.peppol_sent_at
          , recipient_id := none }
      , state := sampleSentState
      , providerCalled := false } :=
  transmit_repeat_is_noop providerSendOk "2025-03-01T00:00:00"
    sampleSentState "inv1" "c1" sampleSent rfl rfl (by decide) rfl rfl

/-- **C9.** When a transmit attempt fails at the provider, only the
transmission fields change: `peppol_status` is set to `FAILED` and the
provider error is recorded in `peppol_response`, while every field of the
already-issued signed artifact — XML file path, content hash, signature,
signing timestamp, certificate serial, previous-chain-hash link, and the
ISSUED lifecycle fields — is unchanged on the stored row. -/
theorem transmit_failure_frame
    (providerSend : String → String → String → String → SendResult)
    (nowTimestamp : String) (s : ServerState)
    (invoice_id userCompany : String) (inv : Invoice) (r : SendResult)
    (hfind : s.invoices.find? (·.id = invoice_id) = some inv)
    (hown : inv.company_id = userCompany)
    (hnd : inv.status ≠ InvoiceStatus.DRAFT)
    (hxml : xmlFileOk s inv = true)
    (hnot : alreadyTransmitted inv = false)
    (hsp : optStrTruthy inv.supplier_peppol_id = true)
    (hcp : optStrTruthy inv.customer_peppol_id = true)
    (hr : providerSend (xmlContentOf s inv) inv.invoice_number
        (inv.supplier_peppol_id.getD "") (inv.customer_peppol_id.getD "") = r)
    (hfail : r.success = false) :
    transmit_invoice_via_peppol providerSend nowTimestamp s invoice_id
        userCompany =
      { result := .error (.httpException 500
          ("PEPPOL transmission failed: " ++ r.error.getD ""))
      , state := ({ s with invoices := (updateInvoice s.invoices
          ({ inv with peppol_status := some "FAILED"
                    , peppol_response := some ("error: " ++ r.error.getD "") })) })
      , providerCalled := true } ∧
    ({ inv with peppol_status := some "FAILED"
              , peppol_response := some ("error: " ++ r.error.getD "")
     } : Invoice).xml_file_path = inv.xml_file_path ∧
    ({ inv with peppol_status := some "FAILED"
              , peppol_response := some ("error: " ++ r.error.getD "")
     } : Invoice).xml_hash = inv.xml_hash ∧
    ({ inv with peppol_status := some "FAILED"
              , peppol_response := some ("error: " ++ r.error.getD "")
     } : Invoice).signature_b64 = inv.signature_b64 ∧
    ({ inv with peppol_status := some "FAILED"
              , peppol_response := some ("error: " ++ r.error.getD "")
     } : Invoice).signing_timestamp = inv.signing_timestamp ∧
    ({ inv with peppol_status := some "FAILED"
              , peppol_response := some ("error: " ++ r.error.getD "")
     } : Invoice).signing_cert_serial = inv.signing_cert_serial ∧
    ({ inv with peppol_status := some "FAILED"
              , peppol_response := some ("error: " ++ r.error.getD "")
     } : Invoice).prev_invoice_hash = inv.prev_invoice_hash ∧
    ({ inv with peppol_status := some "FAILED"
              , peppol_response := some ("error: " ++ r.error.getD "")
     } : Invoice).status = inv.status ∧
    ({ inv with peppol_status := some "FAILED"
              , peppol_response := some ("error: " ++ r.error.getD "")
     } : Invoice).issue_date = inv.issue_date := by
  refine ⟨?_, rfl, rfl, rfl, rfl, rfl, rfl, rfl, rfl⟩
  simp only [transmit_invoice_via_peppol, hfind, hown, hnd, hxml, hnot,
    hsp, hcp, hr, hfail, ne_eq, not_true_eq_false, Bool.not_true,
    Bool.false_eq_true, if_false, if_true]

/-- Witness for `transmit_failure_frame` on the issued fixture with an
always-failing provider. -/
theorem transmit_failure_frame_witness :
    transmit_invoice_via_peppol providerSendFail "2025-03-01T00:00:00"
        sampleIssuedState "inv1" "c1" =
      { result := .error (.httpException 500
          ("PEPPOL transmission failed: " ++
            (providerSendFail (xmlContentOf sampleIssuedState sampleIssued)
              sampleIssued.invoice_number
              (sampleIssued.supplier_peppol_id.getD "")
              (sampleIssued.customer_peppol_id.getD "")).error.getD ""))
      , state := ({ sampleIssuedState with
          invoices := (updateInvoice sampleIssuedState.invoices
            ({ sampleIssued with
                peppol_status := some "FAILED"
              , peppol_response := some ("error: " ++
                  (providerSendFail
                    (xmlContentOf sampleIssuedState sampleIssued)
                    sampleIssued.invoice_number
                    (sampleIssued.supplier_peppol_id.getD "")
                    (sampleIssued.customer_peppol_id.getD "")).error.getD "") })) })
      , providerCalled := true } :=
  (transmit_failure_frame providerSendFail "2025-03-01T00:00:00"
    sampleIssuedState "inv1" "c1" sampleIssued
    (providerSendFail (xmlContentOf sampleIssuedState sampleIssued)
      sampleIssued.invoice_number
      (sampleIssued.supplier_peppol_id.getD "")
      (sampleIssued.customer_peppol_id.getD ""))
    rfl rfl (by decide) rfl rfl rfl rfl rfl rfl).1

/-! ## C1: the hash chain at issuance -/

theorem beamDataAppend (a b : String) : (a ++ b).data = a.data ++ b.data := by
  cases a; cases b; rfl

theorem intercalate_go_data (s : String) :
    ∀ (l : List String) (acc : String),
      ∃ t : List Char, (String.intercalate.go acc s l).data = acc.data ++ t := by
  intro l
  induction l with
  | nil =>
    intro acc
    exact ⟨[], by simp [String.intercalate.go]⟩
  | cons b bs ih =>
    intro acc
    obtain ⟨t, ht⟩ := ih (acc ++ s ++ b)
    refine ⟨s.data ++ b.data ++ t, ?_⟩
    rw [String.intercalate.go, ht, beamDataAppend, beamDataAppend]
    simp [List.append_assoc]

theorem sampleXml_head : sampleXml.data.head? = some '<' := by
  unfold sampleXml UBLXMLGenerator.generate_invoice_xml prettifyXml
  rw [beamDataAppend]
  rfl

theorem canonical_sample_head :
    (canonicalInvoiceString (invoiceDataOfInvoice sampleDraft)).data.head? =
      some 'I' := by
  unfold canonicalInvoiceString String.intercalate
  obtain ⟨t, ht⟩ := intercalate_go_data "|"
    [ pyStrOpt (invoiceDataOfInvoice sampleDraft).issue_date
    , pyStrOpt (invoiceDataOfInvoice sampleDraft).supplier_trn
    , pyStrOpt (invoiceDataOfInvoice sampleDraft).customer_trn
    , pyFloatStr (invoiceDataOfInvoice sampleDraft).total_amount
    , pyFloatStr (invoiceDataOfInvoice sampleDraft).tax_amount
    , pyStrOpt (invoiceDataOfInvoice sampleDraft).prev_invoice_hash ]
    (pyStrOpt (invoiceDataOfInvoice sampleDraft).invoice_number)
  rw [ht]
  rfl

theorem sampleXml_ne_canonical :
    sampleXml ≠ canonicalInvoiceString (invoiceDataOfInvoice sampleDraft) := by
  intro h
  have h1 := sampleXml_head
  rw [h, canonical_sample_head] at h1
  exact absurd h1 (by decide)

/-- Characterization of a successful `issue_invoice` run: under the
preconditions (invoice found and in `DRAFT`, key loaded, XML generation
and signing succeed with a non-empty signature), the endpoint stores
`xml_hash = SHA-256(xml bytes)` and `prev_invoice_hash = chainPrevHash`,
signs `compute_invoice_hash(dict) ++ "|" ++ SHA-256(xml)`, and returns
the updated state. -/
theorem issue_invoice_run {K : Type} (H256 : String → String)
    (rsaSign : K → String → Except String String)
    (crypto : CryptoEngine K) (k : K) (nowDate nowTimestamp : String)
    (s : ServerState) (invoice_id userCompany : String) (inv : Invoice)
    (xml sig : String)
    (hfind : s.invoices.find?
        (fun j => j.id = invoice_id && j.company_id = userCompany) = some inv)
    (hdraft : inv.status = InvoiceStatus.DRAFT)
    (hkey : crypto.private_key = some k)
    (hgen : generate_invoice_xml
        (invoiceDataOfInvoice
          { inv with prev_invoice_hash := chainPrevHash s inv userCompany })
        inv.line_items nowDate = .ok xml)
    (hsign : rsaSign k
        (compute_invoice_hash H256
            (invoiceDataOfInvoice
              { inv with prev_invoice_hash := chainPrevHash s inv userCompany })
          ++ "|" ++ H256 xml) = .ok sig)
    (hsig : sig ≠ "") :
    issue_invoice H256 rsaSign crypto nowDate nowTimestamp s invoice_id
        userCompany =
      .ok ( { invoices := (updateInvoice s.invoices
                ({ inv with
                    prev_invoice_hash := chainPrevHash s inv userCompany
                  , xml_file_path := some ("invoices_xml/" ++
                      replaceChar '/' '_' inv.invoice_number ++ ".xml")
                  , xml_hash := some (H256 xml)
                  , signature_b64 := some sig
                  , signing_timestamp := some nowTimestamp
                  , signing_cert_serial := some "MOCK-CERT-001"
                  , status := InvoiceStatus.ISSUED }))
            , files := (fileWrite s.files ("invoices_xml/" ++
                replaceChar '/' '_' inv.invoice_number ++ ".xml") xml)
            , invoices_generated := s.invoices_generated + 1 }
          , { invoice_id := inv.id
            , invoice_number := inv.invoice_number
            , status := InvoiceStatus.ISSUED
            , xml_hash := H256 xml
            , signature_generated := true
            , hash_chain_linked :=
                (chainPrevHash s inv userCompany).isSome } ) := by
  rw [hdraft] at hgen hsign
  simp only [issue_invoice, hfind, hdraft, ne_eq, not_true_eq_false,
    Bool.false_eq_true, if_false, hgen, CryptoEngine.sign_invoice,
    CryptoEngine.sign_data, hkey, hsign, hsig, not_false_eq_true, if_true]

/-- **C1 (amended).** For every invoice issued via `issue_invoice`, the
SHA-256 of the pipe-joined canonical string is computed and *signed*
(it is the first component of the signed payload) but it is **not** the
stored hash: the stored `xml_hash` is the SHA-256 of the serialized XML
content, and the previous value entering the canonical string is the most
recently *created* same-company invoice's stored XML-content hash when
that is non-empty (the invoice's own previous value — `None` for a first
invoice — otherwise). -/
theorem issue_invoice_stored_and_signed_hashes {K : Type}
    (H256 : String → String)
    (rsaSign : K → String → Except String String)
    (crypto : CryptoEngine K) (k : K) (nowDate nowTimestamp : String)
    (s : ServerState) (invoice_id userCompany : String) (inv : Invoice)
    (xml sig : String)
    (hfind : s.invoices.find?
        (fun j => j.id = invoice_id && j.company_id = userCompany) = some inv)
    (hdraft : inv.status = InvoiceStatus.DRAFT)
    (hkey : crypto.private_key = some k)
    (hgen : generate_invoice_xml
        (invoiceDataOfInvoice
          { inv with prev_invoice_hash := chainPrevHash s inv userCompany })
        inv.line_items nowDate = .ok xml)
    (hsign : rsaSign k
        (compute_invoice_hash H256
            (invoiceDataOfInvoice
              { inv with prev_invoice_hash := chainPrevHash s inv userCompany })
          ++ "|" ++ H256 xml) = .ok sig)
    (hsig : sig ≠ "") :
    issue_invoice H256 rsaSign crypto nowDate nowTimestamp s invoice_id
        userCompany =
      .ok ( { invoices := (updateInvoice s.invoices
                ({ inv with
                    prev_invoice_hash := chainPrevHash s inv userCompany
                  , xml_file_path := some ("invoices_xml/" ++
                      replaceChar '/' '_' inv.invoice_number ++ ".xml")
                  , xml_hash := some (H256 xml)
                  , signature_b64 := some sig
                  , signing_timestamp := some nowTimestamp
                  , signing_cert_serial := some "MOCK-CERT-001"
                  , status := InvoiceStatus.ISSUED }))
            , files := (fileWrite s.files ("invoices_xml/" ++
                replaceChar '/' '_' inv.invoice_number ++ ".xml") xml)
            , invoices_generated := s.invoices_generated + 1 }
          , { invoice_id := inv.id
            , invoice_number := inv.invoice_number
            , status := InvoiceStatus.ISSUED
            , xml_hash := H256 xml
            , signature_generated := true
            , hash_chain_linked :=
                (chainPrevHash s inv userCompany).isSome } ) :=
  issue_invoice_run H256 rsaSign crypto k nowDate nowTimestamp s invoice_id
    userCompany inv xml sig hfind hdraft hkey hgen hsign hsig

/-- **C1 (counterexample).** On the first invoice of company `c1`, with
SHA-256 modelled by the identity function, the hash the issuance stores
is the serialized XML string — not the hash of the pipe-joined canonical
string that the claim asserts is stored. -/
theorem issue_stores_content_hash_not_chain_hash_cex :
    storedXmlHash sampleIssueOut "inv1" = some sampleXml ∧
    storedXmlHash sampleIssueOut "inv1" ≠
      some (compute_invoice_hash id (invoiceDataOfInvoice sampleDraft)) := by
  have hDeq : invoiceDataOfInvoice
      { sampleDraft with
          prev_invoice_hash := chainPrevHash sampleState sampleDraft "c1" } =
      invoiceDataOfInvoice sampleDraft := rfl
  have hgen : generate_invoice_xml
      (invoiceDataOfInvoice
        { sampleDraft with
            prev_invoice_hash := chainPrevHash sampleState sampleDraft "c1" })
      sampleDraft.line_items "2025-02-01" = .ok sampleXml := by
    rw [hDeq]
    simp only [generate_invoice_xml, sampleDraftValidates, Bool.not_true,
      Bool.false_eq_true, if_false]
    rfl
  have hrun := issue_invoice_run id rsaSignMock sampleCrypto ()
    "2025-02-01" "2025-02-01T12:00:00" sampleState "inv1" "c1" sampleDraft
    sampleXml "mock-signature" rfl rfl rfl hgen rfl (by decide)
  have h1 : storedXmlHash sampleIssueOut "inv1" = some sampleXml := by
    unfold sampleIssueOut
    rw [hrun]
    rfl
  refine ⟨h1, ?_⟩
  rw [h1]
  intro hc
  exact sampleXml_ne_canonical (Option.some.inj hc)

/-- Witness for `issue_invoice_stored_and_signed_hashes` at the draft
fixture: the stored hash is the XML-content hash. -/
theorem issue_invoice_stored_and_signed_hashes_witness :
    storedXmlHash sampleIssueOut "inv1" = some (id sampleXml) := by
  have hDeq : invoiceDataOfInvoice
      { sampleDraft with
          prev_invoice_hash := chainPrevHash sampleState sampleDraft "c1" } =
      invoiceDataOfInvoice sampleDraft := rfl
  have hgen : generate_invoice_xml
      (invoiceDataOfInvoice
        { sampleDraft with
            prev_invoice_hash := chainPrevHash sampleState sampleDraft "c1" })
      sampleDraft.line_items "2025-02-01" = .ok sampleXml := by
    rw [hDeq]
    simp only [generate_invoice_xml, sampleDraftValidates, Bool.not_true,
      Bool.false_eq_true, if_false]
    rfl
  have hrun := issue_invoice_stored_and_signed_hashes id
    rsaSignMock sampleCrypto () "2025-02-01" "2025-02-01T12:00:00"
    sampleState "inv1" "c1" sampleDraft sampleXml "mock-signature"
    rfl rfl rfl hgen rfl (by decide)
  unfold sampleIssueOut
  rw [hrun]
  rfl

end Beam
